import Mathlib

/-!
Shallow embedding of the Flask + SQLAlchemy application in `src/app.py`:
a REST API over two tables (`MenuItem`, `FoodOrder`).

Modelling conventions:
* Python JSON values (and the values a handler builds from them) are the
  inductive `PyValue`.  Tuples are included because `create_order` writes
  `dish_ids = dish_ids_str,` and `total_price = data['total_price'],` —
  trailing commas that make both values one-element tuples.
* A request body parsed by `request.get_json()` is an association list
  `Json`; `data['k']` is `jsonGet` (raising `KeyError`), `data.get('k')`
  is `jsonGetOpt` (returning Python `None`).
* The database is the in-memory `DBState`: the rows of the two tables plus
  auto-increment counters for the primary keys.
* Each route handler becomes a function from its inputs and a `DBState`
  to an `Outcome`: either an HTTP response (`resp`) paired with the
  database state after the request, or an uncaught Python exception
  (`uncaught`) that escapes the handler to the framework.
* `db.session.commit()` can fail: handlers take `commit : Option PyExc`,
  where `none` is a successful commit and `some e` a commit raising `e`.
  A failed commit persists nothing, so the database state is unchanged
  on every failure path (with or without an explicit rollback call).
-/

inductive PyValue where
  | none
  | bool (b : Bool)
  | int (n : Int)
  | str (s : String)
  | list (xs : List PyValue)
  | tuple (xs : List PyValue)
  | dict (kvs : List (String × PyValue))

mutual

/-- Decidable equality for `PyValue` (the nested inductive defeats the
deriving handler, so it is written out). -/
def decEqPyValue : (a b : PyValue) → Decidable (a = b)
  | PyValue.none, PyValue.none => isTrue rfl
  | PyValue.bool a, PyValue.bool b =>
      match decEq a b with
      | isTrue h => isTrue (by rw [h])
      | isFalse h => isFalse (by intro hh; cases hh; exact h rfl)
  | PyValue.int a, PyValue.int b =>
      match decEq a b with
      | isTrue h => isTrue (by rw [h])
      | isFalse h => isFalse (by intro hh; cases hh; exact h rfl)
  | PyValue.str a, PyValue.str b =>
      match decEq a b with
      | isTrue h => isTrue (by rw [h])
      | isFalse h => isFalse (by intro hh; cases hh; exact h rfl)
  | PyValue.list xs, PyValue.list ys =>
      match decEqPyList xs ys with
      | isTrue h => isTrue (by rw [h])
      | isFalse h => isFalse (by intro hh; cases hh; exact h rfl)
  | PyValue.tuple xs, PyValue.tuple ys =>
      match decEqPyList xs ys with
      | isTrue h => isTrue (by rw [h])
      | isFalse h => isFalse (by intro hh; cases hh; exact h rfl)
  | PyValue.dict xs, PyValue.dict ys =>
      match decEqPyDict xs ys with
      | isTrue h => isTrue (by rw [h])
      | isFalse h => isFalse (by intro hh; cases hh; exact h rfl)
  | PyValue.none, PyValue.bool _ => isFalse (by intro h; cases h)
  | PyValue.none, PyValue.int _ => isFalse (by intro h; cases h)
  | PyValue.none, PyValue.str _ => isFalse (by intro h; cases h)
  | PyValue.none, PyValue.list _ => isFalse (by intro h; cases h)
  | PyValue.none, PyValue.tuple _ => isFalse (by intro h; cases h)
  | PyValue.none, PyValue.dict _ => isFalse (by intro h; cases h)
  | PyValue.bool _, PyValue.none => isFalse (by intro h; cases h)
  | PyValue.bool _, PyValue.int _ => isFalse (by intro h; cases h)
  | PyValue.bool _, PyValue.str _ => isFalse (by intro h; cases h)
  | PyValue.bool _, PyValue.list _ => isFalse (by intro h; cases h)
  | PyValue.bool _, PyValue.tuple _ => isFalse (by intro h; cases h)
  | PyValue.bool _, PyValue.dict _ => isFalse (by intro h; cases h)
  | PyValue.int _, PyValue.none => isFalse (by intro h; cases h)
  | PyValue.int _, PyValue.bool _ => isFalse (by intro h; cases h)
  | PyValue.int _, PyValue.str _ => isFalse (by intro h; cases h)
  | PyValue.int _, PyValue.list _ => isFalse (by intro h; cases h)
  | PyValue.int _, PyValue.tuple _ => isFalse (by intro h; cases h)
  | PyValue.int _, PyValue.dict _ => isFalse (by intro h; cases h)
  | PyValue.str _, PyValue.none => isFalse (by intro h; cases h)
  | PyValue.str _, PyValue.bool _ => isFalse (by intro h; cases h)
  | PyValue.str _, PyValue.int _ => isFalse (by intro h; cases h)
  | PyValue.str _, PyValue.list _ => isFalse (by intro h; cases h)
  | PyValue.str _, PyValue.tuple _ => isFalse (by intro h; cases h)
  | PyValue.str _, PyValue.dict _ => isFalse (by intro h; cases h)
  | PyValue.list _, PyValue.none => isFalse (by intro h; cases h)
  | PyValue.list _, PyValue.bool _ => isFalse (by intro h; cases h)
  | PyValue.list _, PyValue.int _ => isFalse (by intro h; cases h)
  | PyValue.list _, PyValue.str _ => isFalse (by intro h; cases h)
  | PyValue.list _, PyValue.tuple _ => isFalse (by intro h; cases h)
  | PyValue.list _, PyValue.dict _ => isFalse (by intro h; cases h)
  | PyValue.tuple _, PyValue.none => isFalse (by intro h; cases h)
  | PyValue.tuple _, PyValue.bool _ => isFalse (by intro h; cases h)
  | PyValue.tuple _, PyValue.int _ => isFalse (by intro h; cases h)
  | PyValue.tuple _, PyValue.str _ => isFalse (by intro h; cases h)
  | PyValue.tuple _, PyValue.list _ => isFalse (by intro h; cases h)
  | PyValue.tuple _, PyValue.dict _ => isFalse (by intro h; cases h)
  | PyValue.dict _, PyValue.none => isFalse (by intro h; cases h)
  | PyValue.dict _, PyValue.bool _ => isFalse (by intro h; cases h)
  | PyValue.dict _, PyValue.int _ => isFalse (by intro h; cases h)
  | PyValue.dict _, PyValue.str _ => isFalse (by intro h; cases h)
  | PyValue.dict _, PyValue.list _ => isFalse (by intro h; cases h)
  | PyValue.dict _, PyValue.tuple _ => isFalse (by intro h; cases h)

def decEqPyList : (xs ys : List PyValue) → Decidable (xs = ys)
  | [], [] => isTrue rfl
  | [], _ :: _ => isFalse (by intro h; cases h)
  | _ :: _, [] => isFalse (by intro h; cases h)
  | a :: as, b :: bs =>
      match decEqPyValue a b, decEqPyList as bs with
      | isTrue h1, isTrue h2 => isTrue (by rw [h1, h2])
      | isFalse h1, _ => isFalse (by intro hh; cases hh; exact h1 rfl)
      | _, isFalse h2 => isFalse (by intro hh; cases hh; exact h2 rfl)

def decEqPyDict : (xs ys : List (String × PyValue)) → Decidable (xs = ys)
  | [], [] => isTrue rfl
  | [], _ :: _ => isFalse (by intro h; cases h)
  | _ :: _, [] => isFalse (by intro h; cases h)
  | (k1, v1) :: as, (k2, v2) :: bs =>
      match decEq k1 k2, decEqPyValue v1 v2, decEqPyDict as bs with
      | isTrue h0, isTrue h1, isTrue h2 => isTrue (by rw [h0, h1, h2])
      | isFalse h0, _, _ => isFalse (by intro hh; cases hh; exact h0 rfl)
      | _, isFalse h1, _ => isFalse (by intro hh; cases hh; exact h1 rfl)
      | _, _, isFalse h2 => isFalse (by intro hh; cases hh; exact h2 rfl)

end

instance : DecidableEq PyValue := decEqPyValue

/-- Python truthiness, as used by `if not customer_name or not dish_ids`:
`None`, `False`, `0`, and empty containers are falsy. -/
def pyTruthy : PyValue → Bool
  | PyValue.none => false
  | PyValue.bool b => b
  | PyValue.int n => n != 0
  | PyValue.str s => !s.isEmpty
  | PyValue.list xs => !xs.isEmpty
  | PyValue.tuple xs => !xs.isEmpty
  | PyValue.dict kvs => !kvs.isEmpty

/-- Exceptions a handler can raise: `KeyError` from `data['k']`,
`TypeError` from `','.join(...)` on a non-joinable value, and database
errors raised by `db.session.commit()`. -/
inductive PyExc where
  | keyError (key : String)
  | typeError (msg : String)
  | dbError (msg : String)
  deriving DecidableEq

/-- Python `str(e)`: `str(KeyError(k))` renders the key in quotes, the
other exceptions render their message. -/
def pyExcStr : PyExc → String
  | PyExc.keyError k => "\x27" ++ k ++ "\x27"
  | PyExc.typeError m => m
  | PyExc.dbError m => m

/-- A parsed JSON request body (`request.get_json()`). -/
abbrev Json := List (String × PyValue)

/-- Python `data['k']`: the value, or a raised `KeyError`. -/
def jsonGet (data : Json) (k : String) : Except PyExc PyValue :=
  match data.lookup k with
  | Option.some v => Except.ok v
  | Option.none => Except.error (PyExc.keyError k)

/-- Python `data.get('k')`: the value, or `None` if the key is absent. -/
def jsonGetOpt (data : Json) (k : String) : PyValue :=
  (data.lookup k).getD PyValue.none

/-- Helper for `pyJoin`: every element of the iterable must be a `str`. -/
def strList : List PyValue → Except PyExc (List String)
  | [] => Except.ok []
  | PyValue.str s :: rest => (strList rest).map (fun l => s :: l)
  | _ :: _ => Except.error (PyExc.typeError "sequence item: expected str instance")

/-- Python `sep.join(v)`: joins a list or tuple of strings; joining a
string joins its characters; any other value raises `TypeError`. -/
def pyJoin (sep : String) : PyValue → Except PyExc String
  | PyValue.list xs => (strList xs).map (String.intercalate sep)
  | PyValue.tuple xs => (strList xs).map (String.intercalate sep)
  | PyValue.str s =>
      Except.ok (String.intercalate sep (s.toList.map (fun c => String.mk [c])))
  | _ => Except.error (PyExc.typeError "can only join an iterable of strings")

/-- A row of the `menu_item` table.  The `id` column is the integer
primary key; the other columns hold the Python values the handler
assigned to them. -/
structure MenuItemRow where
  id : Nat
  name : PyValue
  description : PyValue
  price : PyValue
  availability : PyValue
  sold_count : PyValue
  deriving DecidableEq

/-- A row of the `food_order` table. -/
structure FoodOrderRow where
  id : Nat
  customer_name : PyValue
  dish_ids : PyValue
  total_price : PyValue
  order_status : PyValue
  deriving DecidableEq

/-- The database: both tables plus the auto-increment counters for the
primary keys. -/
structure DBState where
  menu : List MenuItemRow
  orders : List FoodOrderRow
  nextMenuId : Nat
  nextOrderId : Nat
  deriving DecidableEq

def emptyDB : DBState := ⟨[], [], 1, 1⟩

/-- An HTTP response: the `jsonify`-ed body and the status code. -/
structure HttpResp where
  body : PyValue
  status : Nat
  deriving DecidableEq

/-- Result of running a handler: a response together with the database
state after the request, or an exception that escaped the handler. -/
inductive Outcome where
  | resp (r : HttpResp) (db : DBState)
  | uncaught (e : PyExc) (db : DBState)
  deriving DecidableEq

def Outcome.statusOf : Outcome → Option Nat
  | Outcome.resp r _ => Option.some r.status
  | Outcome.uncaught _ _ => Option.none

def Outcome.dbOf : Outcome → DBState
  | Outcome.resp _ db => db
  | Outcome.uncaught _ db => db

def Outcome.isUncaught : Outcome → Bool
  | Outcome.resp _ _ => false
  | Outcome.uncaught _ _ => true

/-- Key list of a JSON object (empty for non-objects). -/
def dictKeys : PyValue → List String
  | PyValue.dict kvs => kvs.map Prod.fst
  | _ => []

/-- Field access on a JSON object. -/
def dictLookup (v : PyValue) (k : String) : Option PyValue :=
  match v with
  | PyValue.dict kvs => kvs.lookup k
  | _ => Option.none

/-- Shared extraction step of `add_menu_item` and `update_menu_item`
(app.py lines 46-50 and 97-101): `data['name']`, `data['description']`,
`data['price']`, `data['availability']`, `data['sold_count']`, evaluated
in that order, each able to raise `KeyError`. -/
def menuPayload (data : Json) :
    Except PyExc (PyValue × PyValue × PyValue × PyValue × PyValue) :=
  match jsonGet data "name" with
  | Except.error e => Except.error e
  | Except.ok name =>
    match jsonGet data "description" with
    | Except.error e => Except.error e
    | Except.ok description =>
      match jsonGet data "price" with
      | Except.error e => Except.error e
      | Except.ok price =>
        match jsonGet data "availability" with
        | Except.error e => Except.error e
        | Except.ok availability =>
          match jsonGet data "sold_count" with
          | Except.error e => Except.error e
          | Except.ok sold_count =>
            Except.ok (name, description, price, availability, sold_count)

/-- Handler for `POST /menu/add` (app.py `add_menu_item`, lines 41-63).
The whole body runs inside `try`, so any exception — a `KeyError` from a
missing field or a database error raised by `commit` — is caught and
returned as a 400 response with `str(e)` in the `error` field.  On
success the new row (with the next auto-increment id) is appended and
201 is returned. -/
def add_menu_item (data : Json) (commit : Option PyExc) (db : DBState) : Outcome :=
  match menuPayload data with
  | Except.error e =>
      Outcome.resp ⟨PyValue.dict [("error", PyValue.str (pyExcStr e))], 400⟩ db
  | Except.ok (name, description, price, availability, sold_count) =>
      match commit with
      | Option.none =>
          let new_item : MenuItemRow :=
            ⟨db.nextMenuId, name, description, price, availability, sold_count⟩
          Outcome.resp
            ⟨PyValue.dict [("message", PyValue.str "Menu item added successfully")], 201⟩
            { db with menu := db.menu ++ [new_item], nextMenuId := db.nextMenuId + 1 }
      | Option.some e =>
          Outcome.resp ⟨PyValue.dict [("error", PyValue.str (pyExcStr e))], 400⟩ db

/-- Serialization of a menu item row used by `get_menu_items`
(app.py lines 74-84): a dict of all six columns. -/
def serializeMenuItem (item : MenuItemRow) : PyValue :=
  PyValue.dict [("id", PyValue.int item.id), ("name", item.name),
    ("description", item.description), ("price", item.price),
    ("availability", item.availability), ("sold_count", item.sold_count)]

/-- Handler for `GET /menu` (app.py `get_menu_items`, lines 66-89): lists
every row with all of its fields.  The query itself cannot fail in this
model, so the 500 branch of the source's `except` is unreachable here. -/
def get_menu_items (db : DBState) : Outcome :=
  Outcome.resp ⟨PyValue.list (db.menu.map serializeMenuItem), 200⟩ db

/-- In-place field update of the first row whose primary key matches,
modelling `menu_item = MenuItem.query.get(item_id)` followed by the five
attribute assignments of app.py lines 110-114; rows with a primary key
are unique in a real database, so at most one row matches. -/
def setMenuItem (item_id : Nat)
    (name description price availability sold_count : PyValue) :
    List MenuItemRow → List MenuItemRow
  | [] => []
  | item :: rest =>
      if item.id == item_id then
        { item with
            name := name
            description := description
            price := price
            availability := availability
            sold_count := sold_count } :: rest
      else item :: setMenuItem item_id name description price availability sold_count rest

/-- Handler for `PUT /menu/update/{item_id}` (app.py `update_menu_item`,
lines 92-122).  Everything is inside `try`: a `KeyError` from the payload
extraction or a commit failure yields 400 with `str(e)`; a missing row
yields 404; otherwise all five fields are overwritten and 200 returned. -/
def update_menu_item (item_id : Nat) (data : Json) (commit : Option PyExc)
    (db : DBState) : Outcome :=
  match menuPayload data with
  | Except.error e =>
      Outcome.resp ⟨PyValue.dict [("error", PyValue.str (pyExcStr e))], 400⟩ db
  | Except.ok (name, description, price, availability, sold_count) =>
      match db.menu.find? (fun item => item.id == item_id) with
      | Option.none =>
          Outcome.resp ⟨PyValue.dict [("error", PyValue.str "Menu item not found")], 404⟩ db
      | Option.some _ =>
          match commit with
          | Option.none =>
              Outcome.resp
                ⟨PyValue.dict [("message", PyValue.str "Menu item updated successfully")], 200⟩
                { db with menu :=
                    setMenuItem item_id name description price availability sold_count db.menu }
          | Option.some e =>
              Outcome.resp ⟨PyValue.dict [("error", PyValue.str (pyExcStr e))], 400⟩ db

/-- Handler for `DELETE /menu/delete/{item_id}` (app.py `delete_menu_item`,
lines 125-141): 404 if the row is missing, otherwise the row is deleted
and 200 returned; a commit failure is caught and yields 400 with
`str(e)`. -/
def delete_menu_item (item_id : Nat) (commit : Option PyExc) (db : DBState) : Outcome :=
  match db.menu.find? (fun item => item.id == item_id) with
  | Option.none =>
      Outcome.resp ⟨PyValue.dict [("error", PyValue.str "Menu item not found")], 404⟩ db
  | Option.some _ =>
      match commit with
      | Option.none =>
          Outcome.resp
            ⟨PyValue.dict [("message", PyValue.str "Menu item deleted successfully")], 200⟩
            { db with menu := db.menu.eraseP (fun item => item.id == item_id) }
      | Option.some e =>
          Outcome.resp ⟨PyValue.dict [("error", PyValue.str (pyExcStr e))], 400⟩ db

/-- Handler for `POST /orders` (app.py `create_order`, lines 156-184).
The JSON extraction (lines 159-167) runs OUTSIDE any `try`, so a missing
`dish_ids`, `customer_name` or `total_price` key, or a non-joinable
`dish_ids` value, raises an uncaught exception.  The trailing commas of
`dish_ids = dish_ids_str,` and `total_price = data['total_price'],` wrap
both values in one-element tuples, so the validation `not dish_ids` is
always false and the stored row holds tuples.  Only the
`session.add`/`commit` block is guarded: a commit failure rolls back and
returns 500 with `str(e)`. -/
def create_order (data : Json) (commit : Option PyExc) (db : DBState) : Outcome :=
  match jsonGet data "dish_ids" with
  | Except.error e => Outcome.uncaught e db
  | Except.ok rawDishIds =>
    match pyJoin "," rawDishIds with
    | Except.error e => Outcome.uncaught e db
    | Except.ok dish_ids_str =>
      match jsonGet data "customer_name" with
      | Except.error e => Outcome.uncaught e db
      | Except.ok customer_name =>
        let dish_ids := PyValue.tuple [PyValue.str dish_ids_str]
        match jsonGet data "total_price" with
        | Except.error e => Outcome.uncaught e db
        | Except.ok tp =>
          let total_price := PyValue.tuple [tp]
          let order_status := PyValue.str "received"
          if !pyTruthy customer_name || !pyTruthy dish_ids then
            Outcome.resp
              ⟨PyValue.dict [("error", PyValue.str "Customer name and item IDs are required")], 400⟩
              db
          else
            match commit with
            | Option.none =>
                let new_order : FoodOrderRow :=
                  ⟨db.nextOrderId, customer_name, dish_ids, total_price, order_status⟩
                Outcome.resp
                  ⟨PyValue.dict [("message", PyValue.str "Order created successfully")], 201⟩
                  { db with
                      orders := db.orders ++ [new_order]
                      nextOrderId := db.nextOrderId + 1 }
            | Option.some e =>
                Outcome.resp ⟨PyValue.dict [("error", PyValue.str (pyExcStr e))], 500⟩ db

/-- In-place update of the `order_status` column of the first row whose
primary key matches, modelling `order = FoodOrder.query.get(order_id)`
followed by `order.order_status = new_status` (app.py lines 195-201). -/
def setOrderStatus (order_id : Nat) (v : PyValue) :
    List FoodOrderRow → List FoodOrderRow
  | [] => []
  | o :: rest =>
      if o.id == order_id then { o with order_status := v } :: rest
      else o :: setOrderStatus order_id v rest

/-- Handler for `PUT /orders/{order_id}` (app.py `update_order_status`,
lines 188-208): reads `data.get('order_status')` (so a missing key gives
`None`), 404 if the order is missing, otherwise the status is overwritten
and committed; a commit failure rolls back and returns 500 with the
fixed message "Failed to update order status" (not `str(e)`). -/
def update_order_status (order_id : Nat) (data : Json) (commit : Option PyExc)
    (db : DBState) : Outcome :=
  let new_status := jsonGetOpt data "order_status"
  match db.orders.find? (fun o => o.id == order_id) with
  | Option.none =>
      Outcome.resp ⟨PyValue.dict [("error", PyValue.str "Order not found")], 404⟩ db
  | Option.some _ =>
      match commit with
      | Option.none =>
          Outcome.resp
            ⟨PyValue.dict [("message", PyValue.str "Order status updated successfully")], 200⟩
            { db with orders := setOrderStatus order_id new_status db.orders }
      | Option.some _ =>
          Outcome.resp
            ⟨PyValue.dict [("error", PyValue.str "Failed to update order status")], 500⟩ db

/-- Serialization used by both order query handlers (app.py lines 221 and
241): exactly the keys `id`, `customer_name`, `order_status`. -/
def serializeOrder (o : FoodOrderRow) : PyValue :=
  PyValue.dict [("id", PyValue.int o.id), ("customer_name", o.customer_name),
    ("order_status", o.order_status)]

/-- Handler for `GET /orders/customer/{customer_name}` (app.py
`get_orders_by_customer`, lines 212-224): exact-match filter on the
`customer_name` column; 200 with an informational message when nothing
matches, otherwise 200 with the serialized matches under `orders`. -/
def get_orders_by_customer (customer_name : String) (db : DBState) : Outcome :=
  let orders := db.orders.filter (fun o => o.customer_name = PyValue.str customer_name)
  if orders.isEmpty then
    Outcome.resp
      ⟨PyValue.dict [("message", PyValue.str "No orders found for this customer")], 200⟩ db
  else
    Outcome.resp
      ⟨PyValue.dict [("orders", PyValue.list (orders.map serializeOrder))], 200⟩ db

/-- Handler for `GET /orders/status/{order_status}` (app.py
`get_orders_by_status`, lines 228-244).  The source checks
`if order_status is not None`; the path converter always supplies a
string, but the dead `else` branch (all orders) is kept by modelling the
parameter as `Option String`. -/
def get_orders_by_status (order_status : Option String) (db : DBState) : Outcome :=
  let orders :=
    match order_status with
    | Option.some s => db.orders.filter (fun (o : FoodOrderRow) => o.order_status = PyValue.str s)
    | Option.none => db.orders
  if orders.isEmpty then
    Outcome.resp
      ⟨PyValue.dict [("message", PyValue.str "No orders found with this status")], 200⟩ db
  else
    Outcome.resp
      ⟨PyValue.dict [("orders", PyValue.list (orders.map serializeOrder))], 200⟩ db

/-- Sample database with one menu item row (primary key 7), used to
evaluate the theorems on concrete inputs. -/
def sampleMenuDB : DBState :=
  ⟨[⟨7, PyValue.str "dosa", PyValue.str "crispy", PyValue.int 120,
      PyValue.bool true, PyValue.int 0⟩], [], 8, 1⟩

/-- Sample database with one order row (primary key 1, customer "bob"),
used to evaluate the theorems on concrete inputs. -/
def sampleOrderDB : DBState :=
  ⟨[], [⟨1, PyValue.str "bob", PyValue.tuple [PyValue.str "1"],
      PyValue.tuple [PyValue.int 3], PyValue.str "received"⟩], 1, 2⟩

/-- Sample complete menu-item payload. -/
def sampleMenuJson : Json :=
  [("name", PyValue.str "idli"), ("description", PyValue.str "steamed"),
   ("price", PyValue.int 40), ("availability", PyValue.bool true),
   ("sold_count", PyValue.int 0)]

/-! ## Helper lemmas -/

/-- Helper: once `eraseP` has removed the row with primary key `k`, no
row with that key remains, because primary keys are unique. -/
theorem find?_eraseP_id_eq_none (l : List MenuItemRow) (k : Nat)
    (hnd : (l.map MenuItemRow.id).Nodup) :
    (l.eraseP (fun item => item.id == k)).find? (fun item => item.id == k)
      = Option.none := by
  induction l with
  | nil => rfl
  | cons a l ih =>
    rcases List.nodup_cons.mp hnd with ⟨ha, hl⟩
    by_cases h : a.id = k
    · rw [List.eraseP_cons_of_pos (by simp [h])]
      apply List.find?_eq_none.mpr
      intro x hx hxk
      apply ha
      have : x.id = a.id := by
        have := beq_iff_eq.mp hxk
        rw [this, h]
      rw [← this]
      exact List.mem_map_of_mem MenuItemRow.id hx
    · rw [List.eraseP_cons_of_neg (by simp [h])]
      rw [List.find?_cons_of_neg _ (by simp [h])]
      exact ih hl

/-- Helper: updating the status of the first row with primary key `k`
means a later lookup of `k` sees the updated row. -/
theorem setOrderStatus_find? (l : List FoodOrderRow) (k : Nat) (v : PyValue)
    (r : FoodOrderRow)
    (hf : l.find? (fun o => o.id == k) = Option.some r) :
    (setOrderStatus k v l).find? (fun o => o.id == k)
      = Option.some { r with order_status := v } := by
  induction l with
  | nil => cases hf
  | cons o rest ih =>
    by_cases h : o.id = k
    · rw [List.find?_cons_of_pos _ (by simp [h])] at hf
      cases hf
      simp only [setOrderStatus]
      rw [if_pos (by simp [h])]
      rw [List.find?_cons_of_pos _ (by simp [h])]
    · rw [List.find?_cons_of_neg _ (by simp [h])] at hf
      simp only [setOrderStatus]
      rw [if_neg (by simp [h])]
      rw [List.find?_cons_of_neg _ (by simp [h])]
      exact ih hf

/-! ## Claims -/

/-- C1 (counterexample): a `POST /orders` body missing both keys does
NOT produce a 400 response — the handler raises an uncaught `KeyError`
for `dish_ids` (the first extraction, which runs outside any `try`). -/
theorem C1_counterexample :
    create_order [] Option.none emptyDB
      = Outcome.uncaught (PyExc.keyError "dish_ids") emptyDB
    ∧ Outcome.statusOf (create_order [] Option.none emptyDB) ≠ Option.some 400 := by
  decide

/-- C1 (amended): for every `POST /orders` body missing `customer_name`
or missing `dish_ids`, `create_order` raises an uncaught exception
(rather than returning status 400) and persists no order row — the
database state is unchanged. -/
theorem C1_create_order_missing_keys (data : Json) (commit : Option PyExc)
    (db : DBState)
    (h : data.lookup "customer_name" = Option.none
       ∨ data.lookup "dish_ids" = Option.none) :
    (create_order data commit db).isUncaught = true
    ∧ (create_order data commit db).dbOf = db := by
  rcases hdi : data.lookup "dish_ids" with _ | v
  · constructor <;> simp [create_order, jsonGet, hdi, Outcome.isUncaught, Outcome.dbOf]
  · rcases h with hc | hd
    · rcases hj : pyJoin "," v with e | s
      · constructor <;>
          simp [create_order, jsonGet, hdi, hj, Outcome.isUncaught, Outcome.dbOf]
      · constructor <;>
          simp [create_order, jsonGet, hdi, hj, hc, Outcome.isUncaught, Outcome.dbOf]
    · rw [hdi] at hd
      cases hd

/-- C1 (witness): the amended theorem applied to the empty body. -/
theorem C1_witness :
    (create_order [] Option.none emptyDB).isUncaught = true
    ∧ (create_order [] Option.none emptyDB).dbOf = emptyDB :=
  C1_create_order_missing_keys [] Option.none emptyDB (Or.inl rfl)

/-- C2 (code bug evidence): a valid `POST /orders` request whose
`dish_ids` is `["1", "2"]` and whose `total_price` is `30` succeeds with
201, but the persisted row stores `dish_ids` as the one-element TUPLE
`("1,2",)` and `total_price` as the tuple `(30,)` — not the comma-joined
string and number the claim (and the source's own `# Store as a string`
comment) describe.  `order_status` is `"received"` as claimed. -/
theorem C2_create_order_stores_tuples :
    create_order
        [("customer_name", PyValue.str "alice"),
         ("dish_ids", PyValue.list [PyValue.str "1", PyValue.str "2"]),
         ("total_price", PyValue.int 30)]
        Option.none emptyDB
      = Outcome.resp
          ⟨PyValue.dict [("message", PyValue.str "Order created successfully")], 201⟩
          { emptyDB with
              orders := [⟨1, PyValue.str "alice", PyValue.tuple [PyValue.str "1,2"],
                PyValue.tuple [PyValue.int 30], PyValue.str "received"⟩]
              nextOrderId := 2 }
    ∧ PyValue.tuple [PyValue.str "1,2"] ≠ PyValue.str "1,2"
    ∧ PyValue.tuple [PyValue.int 30] ≠ PyValue.int 30 := by
  decide

/-- C3 (counterexample): an exception raised by the commit inside
`update_order_status` IS caught, but the response's `error` field is the
fixed string "Failed to update order status", not the string
representation of the exception. -/
theorem C3_counterexample :
    update_order_status 1 [("order_status", PyValue.str "done")]
        (Option.some (PyExc.dbError "deadlock")) sampleOrderDB
      = Outcome.resp
          ⟨PyValue.dict [("error", PyValue.str "Failed to update order status")], 500⟩
          sampleOrderDB
    ∧ pyExcStr (PyExc.dbError "deadlock") ≠ "Failed to update order status" := by
  decide

/-- C3 (amended): exception handling is not uniform across handlers.
The menu-item handlers catch every exception and return `str(e)` as the
`error` field (400); `create_order` catches only commit exceptions,
returning `str(e)` with 500; `update_order_status` catches commit
exceptions but replies with the fixed message "Failed to update order
status"; and `create_order`'s JSON extraction runs outside any `try`, so
an exception there propagates uncaught. -/
theorem C3_exception_handling (data cdata odata : Json) (order_id : Nat)
    (e : PyExc) (db : DBState)
    (p : PyValue × PyValue × PyValue × PyValue × PyValue)
    (hm : menuPayload data = Except.ok p)
    (r : FoodOrderRow)
    (hr : db.orders.find? (fun o => o.id == order_id) = Option.some r)
    (hc : cdata.lookup "dish_ids" = Option.none) :
    add_menu_item data (Option.some e) db
      = Outcome.resp ⟨PyValue.dict [("error", PyValue.str (pyExcStr e))], 400⟩ db
    ∧ update_order_status order_id odata (Option.some e) db
      = Outcome.resp
          ⟨PyValue.dict [("error", PyValue.str "Failed to update order status")], 500⟩ db
    ∧ create_order cdata (Option.some e) db
      = Outcome.uncaught (PyExc.keyError "dish_ids") db := by
  refine ⟨?_, ?_, ?_⟩
  · obtain ⟨a, b, c, d, f⟩ := p
    simp [add_menu_item, hm]
  · simp [update_order_status, hr]
  · simp [create_order, jsonGet, hc]

/-- C3 (witness): the amended theorem instantiated on concrete requests. -/
theorem C3_witness :
    add_menu_item sampleMenuJson (Option.some (PyExc.dbError "disk full")) sampleOrderDB
      = Outcome.resp ⟨PyValue.dict [("error", PyValue.str "disk full")], 400⟩ sampleOrderDB
    ∧ update_order_status 1 [] (Option.some (PyExc.dbError "disk full")) sampleOrderDB
      = Outcome.resp
          ⟨PyValue.dict [("error", PyValue.str "Failed to update order status")], 500⟩
          sampleOrderDB
    ∧ create_order [] (Option.some (PyExc.dbError "disk full")) sampleOrderDB
      = Outcome.uncaught (PyExc.keyError "dish_ids") sampleOrderDB :=
  C3_exception_handling sampleMenuJson [] [] 1 (PyExc.dbError "disk full")
    sampleOrderDB
    (PyValue.str "idli", PyValue.str "steamed", PyValue.int 40,
      PyValue.bool true, PyValue.int 0)
    rfl
    ⟨1, PyValue.str "bob", PyValue.tuple [PyValue.str "1"],
      PyValue.tuple [PyValue.int 3], PyValue.str "received"⟩
    rfl rfl

/-- C4 (counterexample): a body whose only key is `customer_name` (with
the empty string) raises an uncaught `KeyError` for `dish_ids` instead of
returning status 400, because the extraction of `dish_ids` happens before
the emptiness check and outside any `try`. -/
theorem C4_counterexample :
    create_order [("customer_name", PyValue.str "")] Option.none emptyDB
      = Outcome.uncaught (PyExc.keyError "dish_ids") emptyDB
    ∧ Outcome.statusOf
        (create_order [("customer_name", PyValue.str "")] Option.none emptyDB)
      ≠ Option.some 400 := by
  decide

/-- C4 (amended): for every `POST /orders` body that contains
`customer_name` mapped to the empty string AND a joinable `dish_ids`
value AND a `total_price` key, `create_order` returns status 400 with
the required-fields error and leaves the database unchanged. -/
theorem C4_create_order_empty_name (data : Json) (commit : Option PyExc)
    (db : DBState) (v tp : PyValue) (s : String)
    (hd : data.lookup "dish_ids" = Option.some v)
    (hj : pyJoin "," v = Except.ok s)
    (hc : data.lookup "customer_name" = Option.some (PyValue.str ""))
    (ht : data.lookup "total_price" = Option.some tp) :
    create_order data commit db
      = Outcome.resp
          ⟨PyValue.dict [("error", PyValue.str "Customer name and item IDs are required")], 400⟩
          db := by
  simp [create_order, jsonGet, hd, hj, hc, ht, pyTruthy]
  intro h
  exact absurd h (by decide)

/-- C4 (witness): the amended theorem applied to a concrete body with an
empty customer name. -/
theorem C4_witness :
    create_order
        [("customer_name", PyValue.str ""),
         ("dish_ids", PyValue.list [PyValue.str "1"]),
         ("total_price", PyValue.int 5)]
        Option.none emptyDB
      = Outcome.resp
          ⟨PyValue.dict [("error", PyValue.str "Customer name and item IDs are required")], 400⟩
          emptyDB :=
  C4_create_order_empty_name _ Option.none emptyDB
    (PyValue.list [PyValue.str "1"]) (PyValue.int 5) "1" rfl rfl rfl rfl

/-- C5: a `PUT /menu/update/{id}` request with a full replacement payload
for an id with no matching `MenuItem` row returns status 404 and leaves
the database state completely unchanged. -/
theorem C5_update_menu_item_not_found (item_id : Nat) (data : Json)
    (commit : Option PyExc) (db : DBState)
    (p : PyValue × PyValue × PyValue × PyValue × PyValue)
    (hm : menuPayload data = Except.ok p)
    (hf : db.menu.find? (fun item => item.id == item_id) = Option.none) :
    update_menu_item item_id data commit db
      = Outcome.resp ⟨PyValue.dict [("error", PyValue.str "Menu item not found")], 404⟩ db := by
  obtain ⟨a, b, c, d, f⟩ := p
  simp [update_menu_item, hm, hf]

/-- C5 (witness): updating id 99, absent from the sample database. -/
theorem C5_witness :
    update_menu_item 99 sampleMenuJson Option.none sampleMenuDB
      = Outcome.resp ⟨PyValue.dict [("error", PyValue.str "Menu item not found")], 404⟩
          sampleMenuDB :=
  C5_update_menu_item_not_found 99 sampleMenuJson Option.none sampleMenuDB
    (PyValue.str "idli", PyValue.str "steamed", PyValue.int 40,
      PyValue.bool true, PyValue.int 0)
    rfl (by decide)

/-- C6: in every state whose menu table has unique primary keys and
contains a row with id `k`, the first `DELETE /menu/delete/{k}` returns
200 and removes the row (no row with id `k` survives), and the second
returns 404 leaving the state untouched. -/
theorem C6_delete_menu_item_twice (db : DBState) (k : Nat)
    (hnd : (db.menu.map MenuItemRow.id).Nodup)
    (r : MenuItemRow)
    (hf : db.menu.find? (fun item => item.id == k) = Option.some r) :
    delete_menu_item k Option.none db
      = Outcome.resp
          ⟨PyValue.dict [("message", PyValue.str "Menu item deleted successfully")], 200⟩
          { db with menu := db.menu.eraseP (fun item => item.id == k) }
    ∧ (db.menu.eraseP (fun item => item.id == k)).find? (fun item => item.id == k)
      = Option.none
    ∧ ∀ commit2,
        delete_menu_item k commit2
            { db with menu := db.menu.eraseP (fun item => item.id == k) }
          = Outcome.resp ⟨PyValue.dict [("error", PyValue.str "Menu item not found")], 404⟩
              { db with menu := db.menu.eraseP (fun item => item.id == k) } := by
  have h2 := find?_eraseP_id_eq_none db.menu k hnd
  refine ⟨?_, h2, ?_⟩
  · simp [delete_menu_item, hf]
  · intro commit2
    simp [delete_menu_item, h2]

/-- C6 (witness): deleting id 7 twice in the sample database. -/
theorem C6_witness :
    delete_menu_item 7 Option.none sampleMenuDB
      = Outcome.resp
          ⟨PyValue.dict [("message", PyValue.str "Menu item deleted successfully")], 200⟩
          { sampleMenuDB with
              menu := sampleMenuDB.menu.eraseP (fun item => item.id == 7) }
    ∧ delete_menu_item 7 Option.none
        { sampleMenuDB with
            menu := sampleMenuDB.menu.eraseP (fun item => item.id == 7) }
      = Outcome.resp ⟨PyValue.dict [("error", PyValue.str "Menu item not found")], 404⟩
          { sampleMenuDB with
              menu := sampleMenuDB.menu.eraseP (fun item => item.id == 7) } :=
  ⟨(C6_delete_menu_item_twice sampleMenuDB 7 (by decide)
      ⟨7, PyValue.str "dosa", PyValue.str "crispy", PyValue.int 120,
        PyValue.bool true, PyValue.int 0⟩ rfl).1,
   (C6_delete_menu_item_twice sampleMenuDB 7 (by decide)
      ⟨7, PyValue.str "dosa", PyValue.str "crispy", PyValue.int 120,
        PyValue.bool true, PyValue.int 0⟩ rfl).2.2 Option.none⟩

/-- C7: `PUT /orders/{id}` returns 404 (no state change) when the order
is missing; otherwise on a successful commit it overwrites exactly that
row's `order_status` with `data.get('order_status')` and returns 200, and
on a failed commit it rolls back — the database is unchanged — and
returns 500 with the generic error message. -/
theorem C7_update_order_status_contract (order_id : Nat) (data : Json)
    (db : DBState) :
    (db.orders.find? (fun o => o.id == order_id) = Option.none →
      ∀ commit, update_order_status order_id data commit db
        = Outcome.resp ⟨PyValue.dict [("error", PyValue.str "Order not found")], 404⟩ db)
    ∧ (∀ r, db.orders.find? (fun o => o.id == order_id) = Option.some r →
        update_order_status order_id data Option.none db
          = Outcome.resp
              ⟨PyValue.dict [("message", PyValue.str "Order status updated successfully")], 200⟩
              { db with
                  orders := setOrderStatus order_id (jsonGetOpt data "order_status") db.orders }
        ∧ (setOrderStatus order_id (jsonGetOpt data "order_status") db.orders).find?
            (fun o => o.id == order_id)
          = Option.some { r with order_status := jsonGetOpt data "order_status" }
        ∧ ∀ e, update_order_status order_id data (Option.some e) db
          = Outcome.resp
              ⟨PyValue.dict [("error", PyValue.str "Failed to update order status")], 500⟩
              db) := by
  constructor
  · intro hn commit
    simp [update_order_status, hn]
  · intro r hr
    refine ⟨?_, setOrderStatus_find? db.orders order_id _ r hr, ?_⟩
    · simp [update_order_status, hr]
    · intro e
      simp [update_order_status, hr]

/-- C7 (witness): the contract applied to the sample database, both for
the present order id 1 and the absent order id 2. -/
theorem C7_witness :
    update_order_status 1 [("order_status", PyValue.str "done")] Option.none sampleOrderDB
      = Outcome.resp
          ⟨PyValue.dict [("message", PyValue.str "Order status updated successfully")], 200⟩
          { sampleOrderDB with
              orders := setOrderStatus 1
                (jsonGetOpt [("order_status", PyValue.str "done")] "order_status")
                sampleOrderDB.orders }
    ∧ update_order_status 2 [("order_status", PyValue.str "done")] Option.none sampleOrderDB
      = Outcome.resp ⟨PyValue.dict [("error", PyValue.str "Order not found")], 404⟩
          sampleOrderDB :=
  ⟨((C7_update_order_status_contract 1 [("order_status", PyValue.str "done")]
      sampleOrderDB).2
      ⟨1, PyValue.str "bob", PyValue.tuple [PyValue.str "1"],
        PyValue.tuple [PyValue.int 3], PyValue.str "received"⟩ rfl).1,
   (C7_update_order_status_contract 2 [("order_status", PyValue.str "done")]
      sampleOrderDB).1 rfl Option.none⟩

/-- C8: adding a menu item whose payload carries all five fields returns
201 and appends the row; a subsequent `GET /menu` lists all rows, and the
list contains the serialized object whose `name`, `description`, `price`,
`availability` and `sold_count` equal the supplied values. -/
theorem C8_add_then_list (data : Json) (db : DBState)
    (vn vd vp va vs : PyValue)
    (h1 : data.lookup "name" = Option.some vn)
    (h2 : data.lookup "description" = Option.some vd)
    (h3 : data.lookup "price" = Option.some vp)
    (h4 : data.lookup "availability" = Option.some va)
    (h5 : data.lookup "sold_count" = Option.some vs) :
    add_menu_item data Option.none db
      = Outcome.resp
          ⟨PyValue.dict [("message", PyValue.str "Menu item added successfully")], 201⟩
          { db with
              menu := db.menu ++ [(⟨db.nextMenuId, vn, vd, vp, va, vs⟩ : MenuItemRow)]
              nextMenuId := db.nextMenuId + 1 }
    ∧ get_menu_items
        { db with
            menu := db.menu ++ [(⟨db.nextMenuId, vn, vd, vp, va, vs⟩ : MenuItemRow)]
            nextMenuId := db.nextMenuId + 1 }
      = Outcome.resp
          ⟨PyValue.list ((db.menu ++ [(⟨db.nextMenuId, vn, vd, vp, va, vs⟩ : MenuItemRow)]).map serializeMenuItem), 200⟩
          { db with
              menu := db.menu ++ [(⟨db.nextMenuId, vn, vd, vp, va, vs⟩ : MenuItemRow)]
              nextMenuId := db.nextMenuId + 1 }
    ∧ PyValue.dict [("id", PyValue.int db.nextMenuId), ("name", vn),
        ("description", vd), ("price", vp), ("availability", va), ("sold_count", vs)]
      ∈ (db.menu ++ [(⟨db.nextMenuId, vn, vd, vp, va, vs⟩ : MenuItemRow)]).map serializeMenuItem := by
  refine ⟨?_, rfl, ?_⟩
  · simp [add_menu_item, menuPayload, jsonGet, h1, h2, h3, h4, h5]
  · simp [serializeMenuItem]

/-- C8 (witness): adding the sample payload to the empty database. -/
theorem C8_witness :
    add_menu_item sampleMenuJson Option.none emptyDB
      = Outcome.resp
          ⟨PyValue.dict [("message", PyValue.str "Menu item added successfully")], 201⟩
          { emptyDB with
              menu := emptyDB.menu ++ [(⟨emptyDB.nextMenuId, PyValue.str "idli",
                PyValue.str "steamed", PyValue.int 40, PyValue.bool true, PyValue.int 0⟩ : MenuItemRow)]
              nextMenuId := emptyDB.nextMenuId + 1 }
    ∧ PyValue.dict [("id", PyValue.int emptyDB.nextMenuId), ("name", PyValue.str "idli"),
        ("description", PyValue.str "steamed"), ("price", PyValue.int 40),
        ("availability", PyValue.bool true), ("sold_count", PyValue.int 0)]
      ∈ (emptyDB.menu ++ [(⟨emptyDB.nextMenuId, PyValue.str "idli", PyValue.str "steamed",
          PyValue.int 40, PyValue.bool true, PyValue.int 0⟩ : MenuItemRow)]).map serializeMenuItem :=
  ⟨(C8_add_then_list sampleMenuJson emptyDB _ _ _ _ _ rfl rfl rfl rfl rfl).1,
   (C8_add_then_list sampleMenuJson emptyDB _ _ _ _ _ rfl rfl rfl rfl rfl).2.2⟩

/-- C9: `GET /orders/customer/{name}` returns 200 with an informational
message (and no `error` field) when no row's `customer_name` equals the
path value exactly, and otherwise 200 with the matching orders, each
serialized with exactly the keys `id`, `customer_name`, `order_status`. -/
theorem C9_get_orders_by_customer_contract (cname : String) (db : DBState) :
    (db.orders.filter (fun o => o.customer_name = PyValue.str cname) = [] →
      get_orders_by_customer cname db
        = Outcome.resp
            ⟨PyValue.dict [("message", PyValue.str "No orders found for this customer")], 200⟩
            db
      ∧ dictLookup
          (PyValue.dict [("message", PyValue.str "No orders found for this customer")])
          "error"
        = Option.none)
    ∧ (db.orders.filter (fun o => o.customer_name = PyValue.str cname) ≠ [] →
      get_orders_by_customer cname db
        = Outcome.resp
            ⟨PyValue.dict [("orders", PyValue.list
              ((db.orders.filter (fun o => o.customer_name = PyValue.str cname)).map
                serializeOrder))], 200⟩
            db)
    ∧ ∀ o : FoodOrderRow,
        dictKeys (serializeOrder o) = ["id", "customer_name", "order_status"] := by
  refine ⟨?_, ?_, fun o => rfl⟩
  · intro h
    exact ⟨by simp [get_orders_by_customer, h], rfl⟩
  · intro h
    have he : (db.orders.filter (fun o => o.customer_name = PyValue.str cname)).isEmpty
        = false := by
      simpa [List.isEmpty_iff] using h
    simp [get_orders_by_customer, he]

/-- C9 (witness): the contract applied to the sample database for an
absent customer ("carol") and a present one ("bob"). -/
theorem C9_witness :
    get_orders_by_customer "carol" sampleOrderDB
      = Outcome.resp
          ⟨PyValue.dict [("message", PyValue.str "No orders found for this customer")], 200⟩
          sampleOrderDB
    ∧ get_orders_by_customer "bob" sampleOrderDB
      = Outcome.resp
          ⟨PyValue.dict [("orders", PyValue.list
            ((sampleOrderDB.orders.filter
              (fun o => o.customer_name = PyValue.str "bob")).map serializeOrder))], 200⟩
          sampleOrderDB :=
  ⟨((C9_get_orders_by_customer_contract "carol" sampleOrderDB).1 (by decide)).1,
   (C9_get_orders_by_customer_contract "bob" sampleOrderDB).2.1 (by decide)⟩

/-- C10: the three read endpoints — `GET /menu`,
`GET /orders/customer/{name}` and `GET /orders/status/{status}` — leave
the database state exactly as they found it. -/
theorem C10_read_endpoints_preserve_db (db : DBState) (cname : String)
    (ostatus : Option String) :
    (get_menu_items db).dbOf = db
    ∧ (get_orders_by_customer cname db).dbOf = db
    ∧ (get_orders_by_status ostatus db).dbOf = db := by
  refine ⟨rfl, ?_, ?_⟩
  · simp only [get_orders_by_customer]
    split <;> rfl
  · simp only [get_orders_by_status]
    split <;> rfl
